import Mathlib

/-!
Verification of the n8n tool-discovery, caching and session-registry core of
the voice-agent repository. Python functions from
`agent/voice_agent/integrations/n8n.py`, `agent/voice_agent/webhooks.py` and
`agent/voice_agent/bot.py` are shallowly embedded as Lean definitions; the
remote MCP server and the JSON decoder are modelled as explicit parameters,
and the module-level mutable caches as explicit state values threaded through
the functions.
-/

/-- ASCII lowercasing table: the effect of Python `str.lower` on the ASCII
uppercase letters (all inputs appearing in this codebase are ASCII). -/
def asciiCaseTable : List (Char × Char) :=
  [('A', 'a'), ('B', 'b'), ('C', 'c'), ('D', 'd'), ('E', 'e'), ('F', 'f'),
   ('G', 'g'), ('H', 'h'), ('I', 'i'), ('J', 'j'), ('K', 'k'), ('L', 'l'),
   ('M', 'm'), ('N', 'n'), ('O', 'o'), ('P', 'p'), ('Q', 'q'), ('R', 'r'),
   ('S', 's'), ('T', 't'), ('U', 'u'), ('V', 'v'), ('W', 'w'), ('X', 'x'),
   ('Y', 'y'), ('Z', 'z')]

/-- Lowercase one character, as Python `str.lower` does on ASCII text:
uppercase letters map to their lowercase pair, everything else is kept. -/
def pyLowerChar (c : Char) : Char :=
  ((asciiCaseTable.find? (fun p => p.1 == c)).map (fun p => p.2)).getD c

/-- Python `str.lower` (per-character over the string). -/
def pyLower (s : String) : String :=
  ⟨s.data.map pyLowerChar⟩

/-- Python `str.replace(old, new)` for one-character patterns, as used by
`sanitize_tool_name` (`.replace(" ", "_")` and `.replace("-", "_")`). -/
def replaceChar (a b : Char) (s : String) : String :=
  ⟨s.data.map (fun c => if c = a then b else c)⟩

/-- Embedding of `sanitize_tool_name` from `integrations/n8n.py`:
`name.lower().replace(" ", "_").replace("-", "_")`. -/
def sanitize_tool_name (name : String) : String :=
  replaceChar '-' '_' (replaceChar ' ' '_' (pyLower name))

/-- The spec wording for `ToolName` normalization, written independently of
the source: lowercase; each space and each hyphen replaced with an
underscore; all other characters preserved as-is. -/
def spec_sanitize (name : String) : String :=
  ⟨name.data.map (fun c =>
    let c2 := pyLowerChar c
    if c2 = ' ' ∨ c2 = '-' then '_' else c2)⟩

/-- Python ASCII whitespace, as stripped by `str.strip()`. -/
def isPySpace (c : Char) : Bool :=
  c == ' ' || c == '\t' || c == '\n' || c == '\r' || c == '\x0b' || c == '\x0c'

/-- Python `str.strip()`: drop whitespace from both ends. -/
def pyStrip (s : String) : String :=
  ⟨((s.data.dropWhile isPySpace).reverse.dropWhile isPySpace).reverse⟩

/-- One entry of a `WorkflowDetail` node list. Each field models the
corresponding optional key of the node dict (`node.get(...)`). -/
structure N8nNode where
  type : Option String
  notes : Option String
  description : Option String
deriving Repr, DecidableEq

/-- The `workflow` sub-dict of a detail payload; `nodes` models the optional
`"nodes"` key (`.get("nodes", [])` defaults to the empty list). -/
structure WorkflowGraph where
  nodes : Option (List N8nNode)
deriving Repr, DecidableEq

/-- A parsed `get_workflow_details` payload; `workflow` models the optional
`"workflow"` key (`.get("workflow", {})` defaults to the empty dict). -/
structure WorkflowDetail where
  workflow : Option WorkflowGraph
deriving Repr, DecidableEq

/-- Evaluates `workflow_details.get("workflow", {}).get("nodes", [])`. -/
def detailNodes (d : WorkflowDetail) : List N8nNode :=
  (d.workflow.bind WorkflowGraph.nodes).getD []

/-- The node type string marking the webhook trigger node. -/
def webhookNodeType : String := "n8n-nodes-base.webhook"

/-- The loop body of `extract_webhook_description`: scan the node list; at
each webhook-typed node return its stripped `notes` if non-empty, else its
stripped `description` if non-empty, else keep scanning; return `""` when
the list is exhausted. -/
def extractFromNodes : List N8nNode → String
  | [] => ""
  | n :: rest =>
    if n.type = some webhookNodeType then
      let notes := pyStrip (n.notes.getD "")
      if notes ≠ "" then notes
      else
        let nd := pyStrip (n.description.getD "")
        if nd ≠ "" then nd
        else extractFromNodes rest
    else extractFromNodes rest

/-- Embedding of `extract_webhook_description` from `integrations/n8n.py`. -/
def extract_webhook_description (workflow_details : WorkflowDetail) : String :=
  extractFromNodes (detailNodes workflow_details)

/-- The spec wording for `extractDescription`, written independently of the
source: find the FIRST node matching the trigger-node type marker and return
its `notes` trimmed if non-empty, else its `description` trimmed, else the
empty string. -/
def spec_extractDescription (d : WorkflowDetail) : String :=
  match (detailNodes d).find? (fun n => n.type == some webhookNodeType) with
  | some n =>
    let notes := pyStrip (n.notes.getD "")
    if notes ≠ "" then notes
    else pyStrip (n.description.getD "")
  | none => ""

/-- The module state of `integrations/n8n.py`: `_workflow_details_cache`
(an id-keyed map of parsed details) and `_cache_timestamp`. Time values are
modelled as rationals. -/
structure CacheState where
  details : List (String × WorkflowDetail)
  timestamp : ℚ
deriving DecidableEq

/-- Lookup in the workflow-details cache (`wf_id in _workflow_details_cache`
/ `_workflow_details_cache[wf_id]`). -/
def cacheLookup (cache : List (String × WorkflowDetail)) (wf_id : String) :
    Option WorkflowDetail :=
  (cache.find? (fun p => p.1 == wf_id)).map (fun p => p.2)

/-- The constant `_cache_ttl_seconds = 3600` (1 hour TTL). -/
def cacheTtlSeconds : ℚ := 3600

/-- The cache-expiry check at the top of `discover_n8n_workflows`:
`if current_time - _cache_timestamp > _cache_ttl_seconds: clear; stamp`. -/
def ttlCheck (current_time : ℚ) (st : CacheState) : CacheState :=
  if current_time - st.timestamp > cacheTtlSeconds then
    { details := [], timestamp := current_time }
  else st

/-- Embedding of `clear_caches` from `integrations/n8n.py`: empty the details cache and
reset `_cache_timestamp` to 0. -/
def clear_caches (_st : CacheState) : CacheState :=
  { details := [], timestamp := 0 }

/-- One element of the `"data"` list returned by `search_workflows`:
`workflow["name"]`, `workflow["id"]`, `workflow.get("description")`. -/
structure WorkflowSummary where
  name : String
  id : String
  description : Option String
deriving Repr, DecidableEq

/-- The parsed `search_workflows` payload: either a dict carrying a `"data"`
list, or anything else (which the code logs and treats as zero workflows). -/
inductive WorkflowsData where
  | withData (data : List WorkflowSummary)
  | unexpected
deriving DecidableEq

/-- The remote n8n MCP server, modelled as oracles giving the outcome of
`call_tool("search_workflows", \x7b\x7d)` and of
`call_tool("get_workflow_details", ...)` for each workflow id, each already
parsed by `parse_mcp_result`; `Except.error` models a raised exception. -/
structure N8nRemote where
  search : Except String WorkflowsData
  details : String → Except String WorkflowDetail

/-- A tool definition handed to the LLM. The `parameters` schema is the same
fixed permissive object schema for every tool, so only the varying fields
are modelled. -/
structure ToolDef where
  name : String
  description : String
deriving Repr, DecidableEq

/-- The fallback applied when no description was extracted:
`workflow.get("description") or f"Execute {tool_name} workflow"` (a missing
or empty top-level description falls through to the generated default). -/
def fallbackDescription (wf : WorkflowSummary) (tool_name : String) : String :=
  match wf.description with
  | some d => if d ≠ "" then d else "Execute " ++ tool_name ++ " workflow"
  | none => "Execute " ++ tool_name ++ " workflow"

/-- Accumulator of the discovery loop: the `tools` list, the
`workflow_name_map` (as an insertion-ordered association list) and the
current contents of `_workflow_details_cache`. -/
structure DiscoverAcc where
  tools : List ToolDef
  name_map : List (String × String)
  cache : List (String × WorkflowDetail)

/-- Python dict assignment `m[k] = v` over an insertion-ordered association
list: an existing key keeps its position and has its value overwritten, a
new key is appended. -/
def dictInsert (m : List (String × String)) (k v : String) :
    List (String × String) :=
  if m.any (fun p => p.1 == k) then
    m.map (fun p => if p.1 == k then (k, v) else p)
  else m ++ [(k, v)]

/-- One iteration of the `for workflow in workflows` loop of
`discover_n8n_workflows`: sanitize the name; inside the per-workflow `try`,
serve the detail from cache or fetch and cache it, a fetch error leaving the
description empty; then apply the fallback, append the tool and assign the
name mapping (`workflow_name_map[tool_name] = wf_name`, overwriting a
colliding sanitized name). -/
def discoverStep (remote : N8nRemote) (acc : DiscoverAcc) (wf : WorkflowSummary) :
    DiscoverAcc :=
  let tool_name := sanitize_tool_name wf.name
  let fetched : Option WorkflowDetail × List (String × WorkflowDetail) :=
    match cacheLookup acc.cache wf.id with
    | some det => (some det, acc.cache)
    | none =>
      match remote.details wf.id with
      | .ok det => (some det, acc.cache ++ [(wf.id, det)])
      | .error _ => (none, acc.cache)
  let extracted :=
    match fetched.1 with
    | some det => extract_webhook_description det
    | none => ""
  let description :=
    if extracted = "" then fallbackDescription wf tool_name else extracted
  { tools := acc.tools ++ [{ name := tool_name, description := description }],
    name_map := dictInsert acc.name_map tool_name wf.name,
    cache := fetched.2 }

/-- Embedding of `discover_n8n_workflows` from `integrations/n8n.py`: run the TTL check,
call `search_workflows`; a raised error is caught by the outer `try` and
yields the lists accumulated so far (none); an unexpected payload shape
yields zero workflows; otherwise fold the per-workflow loop. Returns
`(tools, workflow_name_map)` together with the final module cache state. -/
def discover_n8n_workflows (remote : N8nRemote) (current_time : ℚ)
    (st : CacheState) :
    List ToolDef × List (String × String) × CacheState :=
  let st1 := ttlCheck current_time st
  match remote.search with
  | .error _ => ([], [], st1)
  | .ok wd =>
    let workflows :=
      match wd with
      | .withData l => l
      | .unexpected => []
    let acc := workflows.foldl (discoverStep remote)
      { tools := [], name_map := [], cache := st1.details }
    (acc.tools, acc.name_map, { details := acc.cache, timestamp := st1.timestamp })

/-- One item of an MCP result content list: either it has a `text`
attribute, or it is something else rendered via `str(...)`. -/
inductive MCPContentItem where
  | textItem (text : String)
  | otherItem (str_repr : String)
deriving Repr, DecidableEq

/-- Evaluates `content_item.text if hasattr(content_item, "text") else str(content_item)`. -/
def contentText : MCPContentItem → String
  | .textItem t => t
  | .otherItem s => s

/-- An MCP call result: either it has a `content` attribute holding a list
(possibly empty, which Python treats as falsy), or it has no such
attribute. -/
inductive MCPResult where
  | withContent (content : List MCPContentItem)
  | noContentAttr
deriving Repr, DecidableEq

/-- The value returned by `parse_mcp_result`: a decoded JSON value, the raw
text when JSON decoding failed, or the unparsed result object itself. -/
inductive ParsedResult (J : Type) where
  | json (v : J)
  | text (t : String)
  | raw (r : MCPResult)
deriving Repr, DecidableEq

/-- Embedding of `parse_mcp_result` from `integrations/n8n.py`, with `json.loads`
modelled as the explicit decoder parameter `jsonLoads` (`none` models a
raised `json.JSONDecodeError`, caught by the function). -/
def parse_mcp_result {J : Type} (jsonLoads : String → Option J) :
    MCPResult → ParsedResult J
  | .withContent (content_item :: _) =>
    let text := contentText content_item
    match jsonLoads text with
    | some v => .json v
    | none => .text text
  | .withContent [] => .raw (.withContent [])
  | .noContentAttr => .raw .noContentAttr

/-- Embedding of `register_session` from `webhooks.py`: `_sessions[session_id] = task`.
The dict is modelled as an association list where the most recent binding
for a key shadows older ones. -/
def register_session {T : Type} (sessions : List (String × T))
    (session_id : String) (task : T) : List (String × T) :=
  (session_id, task) :: sessions

/-- Embedding of `unregister_session` from `webhooks.py`: `_sessions.pop(session_id, None)`. -/
def unregister_session {T : Type} (sessions : List (String × T))
    (session_id : String) : List (String × T) :=
  sessions.filter (fun p => p.1 != session_id)

/-- Embedding of `get_task` from `webhooks.py`: `_sessions.get(session_id)`. -/
def get_task {T : Type} (sessions : List (String × T)) (session_id : String) :
    Option T :=
  (sessions.find? (fun p => p.1 == session_id)).map (fun p => p.2)

/-- A frame pushed into a pipeline task (`TTSSpeakFrame(text=...)`). -/
inductive Frame where
  | ttsSpeak (text : String)
deriving Repr, DecidableEq

/-- An HTTP handler outcome: a successful response body, or a raised
`HTTPException(status_code, detail)`. -/
inductive HttpOutcome (α : Type) where
  | ok (value : α)
  | httpError (status_code : Nat) (detail : String)
deriving Repr, DecidableEq

/-- Response body of `POST /announce`. -/
structure AnnounceResponse where
  status : String
  session_id : String
deriving Repr, DecidableEq

/-- The `/announce` endpoint from `webhooks.py`: look the session up; with
no task raise a 404; otherwise queue a `TTSSpeakFrame` with the message and
answer `status="announced"`. The queued frames are returned alongside the
HTTP outcome. -/
def announce {T : Type} (sessions : List (String × T))
    (message session_id : String) :
    HttpOutcome AnnounceResponse × List Frame :=
  match get_task sessions session_id with
  | none => (.httpError 404 ("No active session: " ++ session_id), [])
  | some _ =>
    (.ok { status := "announced", session_id := session_id },
     [.ttsSpeak message])

/-- Request body of `POST /reload-tools`. -/
structure ReloadToolsRequest where
  tool_name : Option String
  message : Option String
  session_id : String
deriving Repr, DecidableEq

/-- Response body of `POST /reload-tools`. -/
structure ReloadToolsResponse where
  status : String
  tool_count : Nat
  session_id : String
deriving Repr, DecidableEq

/-- The `/reload-tools` endpoint from `webhooks.py`: look the session up;
with no task raise a 404 (leaving the n8n cache state untouched); otherwise
call `clear_caches`, optionally queue an announcement frame, and answer
`status="reloaded"` with `tool_count = 0`. Returns the outcome, the queued
frames and the resulting cache state. -/
def reload_tools {T : Type} (sessions : List (String × T))
    (req : ReloadToolsRequest) (st : CacheState) :
    HttpOutcome ReloadToolsResponse × List Frame × CacheState :=
  match get_task sessions req.session_id with
  | none =>
    (.httpError 404 ("No active session: " ++ req.session_id), [], st)
  | some _ =>
    let st1 := clear_caches st
    let frames :=
      if (req.message.getD "") ≠ "" then [Frame.ttsSpeak (req.message.getD "")]
      else if (req.tool_name.getD "") ≠ "" then
        [Frame.ttsSpeak
          ("A new tool called " ++ req.tool_name.getD "" ++ " is now available.")]
      else []
    (.ok { status := "reloaded", tool_count := 0, session_id := req.session_id },
     frames, st1)

/-- The LLM-supplied arguments object of a function call, modelled as a
string-keyed association of string values (the schema accepts any
properties). -/
abbrev Args := List (String × String)

/-- Evaluates `params.arguments.get(key, default)`. -/
def argGet (args : Args) (key default : String) : String :=
  ((args.find? (fun p => p.1 == key)).map (fun p => p.2)).getD default

/-- The observable effect of invoking a registered handler from `bot.py`:
executing an n8n workflow with the given arguments, answering a web-search
query, or reporting the missing-query error. -/
inductive HandlerAction where
  | executeWorkflow (workflow_name : String) (args : Args)
  | webSearch (query : String)
  | errorNoQuery
deriving Repr, DecidableEq

/-- The `handle_web_search` closure of `register_tool_handlers`: read
`arguments.get("query", "")`; search when the web-search tool exists and the
query is non-empty, else report an error. -/
def handle_web_search (web_search_available : Bool) (args : Args) :
    HandlerAction :=
  let query := argGet args "query" ""
  if web_search_available && query != "" then .webSearch query
  else .errorNoQuery

/-- The `handle_workflow` closure generated for one loop iteration of
`register_tool_handlers`, with `wf_name` bound at definition time via the
`wf_name: str = workflow_name` default argument: invoking it executes that
workflow with the supplied arguments. -/
def handle_workflow (wf_name : String) (args : Args) : HandlerAction :=
  .executeWorkflow wf_name args

/-- Embedding of `llm.register_function(name, handler)`: bind a handler under a name,
shadowing any earlier binding for the same name. -/
def register_function (registry : List (String × (Args → HandlerAction)))
    (name : String) (handler : Args → HandlerAction) :
    List (String × (Args → HandlerAction)) :=
  (name, handler) :: registry

/-- Embedding of `register_tool_handlers` from `bot.py`: register `handle_web_search`
under `"web_search"`, then for each `(tool_name, workflow_name)` of the
workflow name map register a `handle_workflow` closure whose `wf_name`
default argument was evaluated at that iteration. -/
def register_tool_handlers (web_search_available : Bool)
    (workflow_name_map : List (String × String)) :
    List (String × (Args → HandlerAction)) :=
  workflow_name_map.foldl
    (fun registry p => register_function registry p.1 (handle_workflow p.2))
    (register_function [] "web_search" (handle_web_search web_search_available))

/-- Invoke the handler registered under a tool name, if any (this is what
the LLM runtime does when the model elects to call the tool). -/
def invoke_handler (registry : List (String × (Args → HandlerAction)))
    (tool_name : String) (args : Args) : Option HandlerAction :=
  ((registry.find? (fun p => p.1 == tool_name)).map (fun p => p.2)).map
    (fun h => h args)

/-- Concrete detail payload separating `extract_webhook_description` from
the spec wording: the first webhook node has neither notes nor description,
the second one carries notes. -/
def exTwoTriggerDetail : WorkflowDetail :=
  ⟨some ⟨some
      [ { type := some webhookNodeType, notes := none, description := none },
        { type := some webhookNodeType, notes := some "X", description := none } ]⟩⟩

/-- A concrete remote whose catalog call raises. -/
def exFailingRemote : N8nRemote :=
  { search := .error "connection refused",
    details := fun _ => .error "connection refused" }

/-- A concrete detail payload with one webhook node carrying notes. -/
def exNotesDetail : WorkflowDetail :=
  ⟨some ⟨some
      [ { type := some webhookNodeType,
          notes := some "Does a thing", description := none } ]⟩⟩

/-- A concrete remote: the catalog lists two workflows; detail fetch fails
for `"1"` and succeeds for `"2"`. -/
def exMixedRemote : N8nRemote :=
  { search := .ok (.withData
      [ { name := "My Workflow", id := "1", description := none },
        { name := "get-data", id := "2", description := some "Fetches data" } ]),
    details := fun wf_id =>
      if wf_id = "2" then .ok exNotesDetail else .error "timeout" }

/-- A concrete toy JSON decoder used to exercise `parse_mcp_result`. -/
def exDecoder (s : String) : Option Nat :=
  if s = "42" then some 42 else none

/-- The per-character action of the spec normalization: lowercase, then map
a space or hyphen to an underscore. -/
def sanChar (c : Char) : Char :=
  let c2 := pyLowerChar c
  if c2 = ' ' ∨ c2 = '-' then '_' else c2

/-- A node at which the scan of `extract_webhook_description` stops: a
webhook-typed node whose stripped notes or stripped description is
non-empty. -/
def nodeHasDesc (n : N8nNode) : Bool :=
  n.type == some webhookNodeType &&
    (pyStrip (n.notes.getD "") != "" || pyStrip (n.description.getD "") != "")

/-- The description yielded at such a node: stripped notes if non-empty,
else the stripped description. -/
def nodeDescOf (n : N8nNode) : String :=
  if pyStrip (n.notes.getD "") ≠ "" then pyStrip (n.notes.getD "")
  else pyStrip (n.description.getD "")

/-- A concrete detail payload whose only webhook node has neither notes nor
description. -/
def exEmptyTriggerDetail : WorkflowDetail :=
  ⟨some ⟨some [ { type := some webhookNodeType, notes := none, description := none } ]⟩⟩

/-- A concrete cache state holding one entry, last cleared at time 0. -/
def exStaleCache : CacheState :=
  { details := [("1", exNotesDetail)], timestamp := 0 }

theorem asciiCaseTable_snd_not_key :
    ∀ p ∈ asciiCaseTable, asciiCaseTable.find? (fun q => q.1 == p.2) = none := by
  decide

theorem underscore_not_key :
    asciiCaseTable.find? (fun q => q.1 == '_') = none := by
  decide

theorem pyLowerChar_not_key (c : Char) :
    asciiCaseTable.find? (fun q => q.1 == pyLowerChar c) = none := by
  unfold pyLowerChar
  cases hfind : asciiCaseTable.find? (fun p => p.1 == c) with
  | none => simp [hfind]
  | some p =>
    have hp : p ∈ asciiCaseTable := List.mem_of_find?_eq_some hfind
    simpa [hfind] using asciiCaseTable_snd_not_key p hp

theorem pyLowerChar_eq_self_of_not_key (c : Char)
    (h : asciiCaseTable.find? (fun q => q.1 == c) = none) : pyLowerChar c = c := by
  simp [pyLowerChar, h]

theorem pyLowerChar_idem (c : Char) :
    pyLowerChar (pyLowerChar c) = pyLowerChar c :=
  pyLowerChar_eq_self_of_not_key _ (pyLowerChar_not_key c)

theorem sanChar_ne_space_hyphen (c : Char) : sanChar c ≠ ' ' ∧ sanChar c ≠ '-' := by
  unfold sanChar
  by_cases h : pyLowerChar c = ' ' ∨ pyLowerChar c = '-'
  · simp [h]
  · push_neg at h
    simp [h.1, h.2]

theorem sanChar_not_key (c : Char) :
    asciiCaseTable.find? (fun q => q.1 == sanChar c) = none := by
  unfold sanChar
  by_cases h : pyLowerChar c = ' ' ∨ pyLowerChar c = '-'
  · simpa [h] using underscore_not_key
  · simpa [h] using pyLowerChar_not_key c

theorem sanChar_idem (c : Char) : sanChar (sanChar c) = sanChar c := by
  have h1 : pyLowerChar (sanChar c) = sanChar c :=
    pyLowerChar_eq_self_of_not_key _ (sanChar_not_key c)
  have h2 := sanChar_ne_space_hyphen c
  show (let c2 := pyLowerChar (sanChar c);
        if c2 = ' ' ∨ c2 = '-' then '_' else c2) = sanChar c
  simp [h1, h2.1, h2.2]

theorem sanChar_compose (c : Char) :
    (fun y => if y = '-' then '_' else y)
      ((fun y => if y = ' ' then '_' else y) (pyLowerChar c)) = sanChar c := by
  unfold sanChar
  by_cases h1 : pyLowerChar c = ' '
  · simp [h1]
  · by_cases h2 : pyLowerChar c = '-'
    · simp [h1, h2]
    · simp [h1, h2]

theorem sanitize_eq_spec (s : String) : sanitize_tool_name s = spec_sanitize s := by
  simp only [sanitize_tool_name, replaceChar, pyLower, spec_sanitize, List.map_map]
  exact congrArg String.mk (List.map_congr_left (fun c _ => sanChar_compose c))

theorem spec_sanitize_data (s : String) :
    (spec_sanitize s).data = s.data.map sanChar := rfl

theorem sanitize_idem (s : String) :
    sanitize_tool_name (sanitize_tool_name s) = sanitize_tool_name s := by
  rw [sanitize_eq_spec, sanitize_eq_spec]
  apply congrArg String.mk
  rw [spec_sanitize_data, List.map_map]
  exact List.map_congr_left (fun c _ => sanChar_idem c)

/-- Claim C2: `sanitize_tool_name` agrees everywhere with the spec normalization
(lowercase, then each space and each hyphen replaced with an underscore,
all other characters preserved), is idempotent, produces no space and no
hyphen, and matches the three quoted examples. It is a plain function of
its argument, hence pure and total. -/
theorem sanitize_tool_name_spec (x : String) :
    sanitize_tool_name x = spec_sanitize x ∧
    sanitize_tool_name (sanitize_tool_name x) = sanitize_tool_name x ∧
    (∀ c ∈ (sanitize_tool_name x).data, c ≠ ' ' ∧ c ≠ '-') ∧
    sanitize_tool_name "My Workflow" = "my_workflow" ∧
    sanitize_tool_name "get-data" = "get_data" ∧
    sanitize_tool_name "UPPER_CASE" = "upper_case" := by
  refine ⟨sanitize_eq_spec x, sanitize_idem x, ?_, by decide, by decide, by decide⟩
  intro c hc
  rw [sanitize_eq_spec, spec_sanitize_data] at hc
  obtain ⟨a, _, rfl⟩ := List.mem_map.mp hc
  exact sanChar_ne_space_hyphen a

/-- Claim C2 witness: the no-space-no-hyphen clause applied to a concrete
character of a concrete sanitized name. -/
theorem sanitize_tool_name_spec_witness : 'm' ≠ ' ' ∧ 'm' ≠ '-' :=
  (sanitize_tool_name_spec "My Workflow").2.2.1 'm' (by decide)

theorem extractFromNodes_eq_find (l : List N8nNode) :
    extractFromNodes l =
      (match l.find? nodeHasDesc with
       | some n => nodeDescOf n
       | none => "") := by
  induction l with
  | nil => rfl
  | cons n rest ih =>
    rw [extractFromNodes, List.find?_cons]
    by_cases ht : n.type = some webhookNodeType
    · by_cases hn : pyStrip (n.notes.getD "") ≠ ""
      · have hhas : nodeHasDesc n = true := by
          simp [nodeHasDesc, ht, hn]
        simp [ht, hn, hhas, nodeDescOf]
      · by_cases hd : pyStrip (n.description.getD "") ≠ ""
        · have hhas : nodeHasDesc n = true := by
            simp [nodeHasDesc, ht, hd]
          push_neg at hn
          simp [ht, hn, hd, hhas, nodeDescOf]
        · have hhas : nodeHasDesc n = false := by
            push_neg at hn hd
            simp [nodeHasDesc, hn, hd]
          push_neg at hn hd
          simp [ht, hn, hd, hhas, ih]
    · have hhas : nodeHasDesc n = false := by
        simp [nodeHasDesc, ht]
      simp [ht, hhas, ih]

/-- Claim C3 counterexample: on a detail whose first webhook node has neither
notes nor description while a second webhook node carries notes,
`extract_webhook_description` keeps scanning and returns the notes of the
second node, whereas the claimed first-trigger-node rule yields the empty
string. -/
theorem extract_webhook_description_counterexample :
    extract_webhook_description exTwoTriggerDetail = "X" ∧
    spec_extractDescription exTwoTriggerDetail = "" ∧
    extract_webhook_description exTwoTriggerDetail ≠
      spec_extractDescription exTwoTriggerDetail := by
  refine ⟨by decide, by decide, by decide⟩

/-- Claim C3 (amended): `extract_webhook_description` is the pure function that
scans the node list for the first webhook-typed node whose stripped notes
or stripped description is non-empty and returns its stripped notes if
non-empty, else its stripped description; if no webhook node carries
either, it returns the empty string — in particular it returns `""` on any
detail all of whose nodes have empty stripped notes and description. -/
theorem extract_webhook_description_spec (d : WorkflowDetail) :
    extract_webhook_description d =
      (match (detailNodes d).find? nodeHasDesc with
       | some n => nodeDescOf n
       | none => "") ∧
    ((∀ n ∈ detailNodes d, pyStrip (n.notes.getD "") = "" ∧
        pyStrip (n.description.getD "") = "") →
      extract_webhook_description d = "") := by
  constructor
  · exact extractFromNodes_eq_find (detailNodes d)
  · intro h
    rw [extract_webhook_description, extractFromNodes_eq_find]
    have hnone : (detailNodes d).find? nodeHasDesc = none := by
      rw [List.find?_eq_none]
      intro n hn
      have := h n hn
      simp [nodeHasDesc, this.1, this.2]
    rw [hnone]

/-- Claim C3 witness: the empty-description clause applied to a concrete detail
whose only webhook node has no notes and no description. -/
theorem extract_webhook_description_spec_witness :
    extract_webhook_description exEmptyTriggerDetail = "" :=
  (extract_webhook_description_spec exEmptyTriggerDetail).2 (by decide)

/-- Claim C4: the TTL check at the start of every discovery pass. The TTL is
3600 seconds; when the elapsed time exceeds it, the whole details cache is
cleared and the timestamp reset to the current time, and the discovery pass
proceeds exactly as from that cleared state; when the elapsed time is
within the TTL the check leaves the cache state unchanged. The dichotomy
shows entries are only ever evicted en masse, never individually. -/
theorem discovery_ttl_policy (remote : N8nRemote) (current_time : ℚ)
    (st : CacheState) :
    cacheTtlSeconds = 3600 ∧
    (current_time - st.timestamp > cacheTtlSeconds →
      ttlCheck current_time st = { details := [], timestamp := current_time } ∧
      discover_n8n_workflows remote current_time st =
        discover_n8n_workflows remote current_time
          { details := [], timestamp := current_time }) ∧
    (current_time - st.timestamp ≤ cacheTtlSeconds →
      ttlCheck current_time st = st) := by
  refine ⟨rfl, ?_, ?_⟩
  · intro h
    have h1 : ttlCheck current_time st = { details := [], timestamp := current_time } := by
      simp [ttlCheck, h]
    have h2 : ttlCheck current_time { details := [], timestamp := current_time } =
        { details := [], timestamp := current_time } := by
      have : ¬ current_time - current_time > cacheTtlSeconds := by
        simp [cacheTtlSeconds]
      simp [ttlCheck, this]
    refine ⟨h1, ?_⟩
    unfold discover_n8n_workflows
    rw [h1, h2]
  · intro h
    have : ¬ current_time - st.timestamp > cacheTtlSeconds := not_lt.mpr h
    simp [ttlCheck, this]

/-- Claim C4 witness: the two branches of the TTL dichotomy at concrete times
4000 (expired, one cached entry evicted) and 100 (fresh, state kept). -/
theorem discovery_ttl_policy_witness :
    ttlCheck 4000 exStaleCache = { details := [], timestamp := 4000 } ∧
    ttlCheck 100 exStaleCache = exStaleCache :=
  ⟨((discovery_ttl_policy exFailingRemote 4000 exStaleCache).2.1
      (by norm_num [exStaleCache, cacheTtlSeconds])).1,
   (discovery_ttl_policy exFailingRemote 100 exStaleCache).2.2
      (by norm_num [exStaleCache, cacheTtlSeconds])⟩

/-- Claim C5: `clear_caches` empties the details cache (every lookup afterwards
is absent), resets the timestamp to 0, and any later TTL check at a time
greater than the TTL treats the cleared state as expired and cold. -/
theorem clear_caches_spec (st : CacheState) (wf_id : String) :
    cacheLookup (clear_caches st).details wf_id = none ∧
    (clear_caches st).timestamp = 0 ∧
    (∀ now : ℚ, now > cacheTtlSeconds →
      ttlCheck now (clear_caches st) = { details := [], timestamp := now }) := by
  refine ⟨rfl, rfl, ?_⟩
  intro now h
  have : now - (clear_caches st).timestamp > cacheTtlSeconds := by
    simp [clear_caches]
    exact h
  simp [ttlCheck, this]

/-- Claim C5 witness: clearing a concrete one-entry cache and running the next
TTL check at time 5000. -/
theorem clear_caches_spec_witness :
    cacheLookup (clear_caches exStaleCache).details "1" = none ∧
    ttlCheck 5000 (clear_caches exStaleCache) = { details := [], timestamp := 5000 } :=
  ⟨(clear_caches_spec exStaleCache "1").1,
   (clear_caches_spec exStaleCache "1").2.2 5000 (by norm_num [cacheTtlSeconds])⟩

/-- Claim C1: when the catalog call `call_tool("search_workflows", ...)` raises,
`discover_n8n_workflows` returns normally with an empty tool list and an
empty name map; only the TTL check has touched the cache state. -/
theorem discovery_error_empty (remote : N8nRemote) (current_time : ℚ)
    (st : CacheState) (e : String) (h : remote.search = .error e) :
    discover_n8n_workflows remote current_time st =
      ([], [], ttlCheck current_time st) := by
  unfold discover_n8n_workflows
  rw [h]

/-- Claim C1 witness: a concrete remote whose catalog call raises. -/
theorem discovery_error_empty_witness :
    discover_n8n_workflows exFailingRemote 0 { details := [], timestamp := 0 } =
      ([], [], ttlCheck 0 { details := [], timestamp := 0 }) :=
  discovery_error_empty exFailingRemote 0 { details := [], timestamp := 0 }
    "connection refused" rfl

theorem discoverStep_tools_length (remote : N8nRemote) (acc : DiscoverAcc)
    (wf : WorkflowSummary) :
    (discoverStep remote acc wf).tools.length = acc.tools.length + 1 := by
  simp [discoverStep]


theorem discoverLoop_tools_length (remote : N8nRemote)
    (wfs : List WorkflowSummary) :
    ∀ acc : DiscoverAcc,
      ((wfs.foldl (discoverStep remote) acc).tools).length =
        acc.tools.length + wfs.length := by
  induction wfs with
  | nil => intro acc; simp
  | cons w rest ih =>
    intro acc
    rw [List.foldl_cons, ih, discoverStep_tools_length]
    simp
    omega


theorem discoverStep_tools_append (remote : N8nRemote) (acc : DiscoverAcc)
    (wf : WorkflowSummary) :
    ∃ t : ToolDef, (discoverStep remote acc wf).tools = acc.tools ++ [t] := by
  simp [discoverStep]

theorem discoverLoop_tools_prefix (remote : N8nRemote)
    (wfs : List WorkflowSummary) :
    ∀ acc : DiscoverAcc, ∃ l : List ToolDef,
      (wfs.foldl (discoverStep remote) acc).tools = acc.tools ++ l := by
  induction wfs with
  | nil => intro acc; exact ⟨[], by simp⟩
  | cons w rest ih =>
    intro acc
    obtain ⟨l, hl⟩ := ih (discoverStep remote acc w)
    obtain ⟨t, ht⟩ := discoverStep_tools_append remote acc w
    exact ⟨t :: l, by rw [List.foldl_cons, hl, ht]; simp⟩

theorem cacheLookup_append_ne (cache : List (String × WorkflowDetail))
    (k wid : String) (v : WorkflowDetail) (hne : k ≠ wid)
    (h : cacheLookup cache wid = none) :
    cacheLookup (cache ++ [(k, v)]) wid = none := by
  unfold cacheLookup at h ⊢
  have hfind : cache.find? (fun p => p.1 == wid) = none := by
    cases hf : cache.find? (fun p => p.1 == wid) with
    | none => rfl
    | some p => rw [hf] at h; simp at h
  have : (cache ++ [(k, v)]).find? (fun p => p.1 == wid) = none := by
    rw [List.find?_eq_none]
    intro x hx
    rcases List.mem_append.mp hx with h1 | h2
    · exact (List.find?_eq_none.mp hfind) x h1
    · simp at h2
      subst h2
      simp [hne]
  simp [this]

theorem discoverStep_preserves_absent (remote : N8nRemote) (acc : DiscoverAcc)
    (wf : WorkflowSummary) (wid : String) (e : String)
    (he : remote.details wid = .error e)
    (h : cacheLookup acc.cache wid = none) :
    cacheLookup (discoverStep remote acc wf).cache wid = none := by
  cases hc : cacheLookup acc.cache wf.id with
  | some det => simpa [discoverStep, hc] using h
  | none =>
    cases hd : remote.details wf.id with
    | error err => simpa [discoverStep, hc, hd] using h
    | ok det =>
      have hne : wf.id ≠ wid := by
        intro heq
        rw [heq, he] at hd
        cases hd
      simpa [discoverStep, hc, hd] using cacheLookup_append_ne acc.cache wf.id wid det hne h

theorem discoverStep_tools_of_error (remote : N8nRemote) (acc : DiscoverAcc)
    (wf : WorkflowSummary) (e : String)
    (he : remote.details wf.id = .error e)
    (h : cacheLookup acc.cache wf.id = none) :
    (discoverStep remote acc wf).tools = acc.tools ++
      [{ name := sanitize_tool_name wf.name,
         description := fallbackDescription wf (sanitize_tool_name wf.name) }] := by
  simp [discoverStep, h, he]

theorem discoverLoop_error_tool (remote : N8nRemote) (e : String)
    (wfs : List WorkflowSummary) :
    ∀ (acc : DiscoverAcc) (i : Nat) (hi : i < wfs.length),
      remote.details wfs[i].id = .error e →
      cacheLookup acc.cache wfs[i].id = none →
      ((wfs.foldl (discoverStep remote) acc).tools)[acc.tools.length + i]? =
        some { name := sanitize_tool_name wfs[i].name,
               description := fallbackDescription wfs[i]
                 (sanitize_tool_name wfs[i].name) } := by
  induction wfs with
  | nil =>
    intro acc i hi
    exact absurd hi (Nat.not_lt_zero i)
  | cons w rest ih =>
    intro acc i hi he hc
    cases i with
    | zero =>
      simp only [List.getElem_cons_zero] at he hc ⊢
      rw [List.foldl_cons]
      obtain ⟨l, hl⟩ := discoverLoop_tools_prefix remote rest (discoverStep remote acc w)
      rw [hl, discoverStep_tools_of_error remote acc w e he hc, List.append_assoc,
        Nat.add_zero, List.getElem?_append_right (le_refl _)]
      simp
    | succ j =>
      have hj : j < rest.length := Nat.lt_of_succ_lt_succ hi
      simp only [List.getElem_cons_succ] at he hc ⊢
      rw [List.foldl_cons]
      have hc2 : cacheLookup (discoverStep remote acc w).cache rest[j].id = none :=
        discoverStep_preserves_absent remote acc w rest[j].id e he hc
      have hidx : acc.tools.length + (j + 1) =
          (discoverStep remote acc w).tools.length + j := by
        rw [discoverStep_tools_length]
        omega
      rw [hidx]
      exact ih (discoverStep remote acc w) j hj he hc2

/-- Claim C6: a raised error while fetching the detail of one workflow is
absorbed per-workflow: discovery still yields one tool definition for every
listed workflow, and the tool of the affected workflow carries the
fallback description (its top-level description, or, when that is missing
or empty, the generated `Execute {tool_name} workflow` default); the
remaining workflows in the list are discovered unaffected. -/
theorem discovery_per_item_error (remote : N8nRemote) (current_time : ℚ)
    (st : CacheState) (wfs : List WorkflowSummary) (e : String) (i : Nat)
    (hi : i < wfs.length)
    (hsearch : remote.search = .ok (.withData wfs))
    (herr : remote.details wfs[i].id = .error e)
    (hmiss : cacheLookup (ttlCheck current_time st).details wfs[i].id = none) :
    ((discover_n8n_workflows remote current_time st).1).length = wfs.length ∧
    ((discover_n8n_workflows remote current_time st).1)[i]? =
      some { name := sanitize_tool_name wfs[i].name,
             description := fallbackDescription wfs[i]
               (sanitize_tool_name wfs[i].name) } := by
  unfold discover_n8n_workflows
  rw [hsearch]
  constructor
  · simpa using discoverLoop_tools_length remote wfs
      { tools := [], name_map := [], cache := (ttlCheck current_time st).details }
  · simpa using discoverLoop_error_tool remote e wfs
      { tools := [], name_map := [], cache := (ttlCheck current_time st).details }
      i hi herr hmiss

/-- Claim C6 witness: a concrete remote listing two workflows where the detail
fetch for the first raises; the first tool still appears, with the
generated default description, and the second workflow is discovered. -/
theorem discovery_per_item_error_witness :
    ((discover_n8n_workflows exMixedRemote 0 { details := [], timestamp := 0 }).1).length = 2 ∧
    ((discover_n8n_workflows exMixedRemote 0 { details := [], timestamp := 0 }).1)[0]? =
      some { name := sanitize_tool_name "My Workflow",
             description := fallbackDescription
               { name := "My Workflow", id := "1", description := none }
               (sanitize_tool_name "My Workflow") } := by
  have h := discovery_per_item_error exMixedRemote 0 { details := [], timestamp := 0 }
    [ { name := "My Workflow", id := "1", description := none },
      { name := "get-data", id := "2", description := some "Fetches data" } ]
    "timeout" 0 (by decide) rfl rfl
    (by norm_num [ttlCheck, cacheTtlSeconds, cacheLookup])
  exact ⟨h.1, h.2⟩

/-- Claim C7: session-registry laws and the `/announce` contract. Registering a
session makes `get_task` return its task; unregistering makes it absent; a
never-registered id is absent in the empty registry; `announce` on an
unknown session raises a 404 and on a registered session answers
`status="announced"` with the session id (queueing the spoken message). -/
theorem session_registry_spec {T : Type} (sessions : List (String × T))
    (session_id message : String) (task : T) :
    get_task (register_session sessions session_id task) session_id = some task ∧
    get_task (unregister_session sessions session_id) session_id = none ∧
    get_task ([] : List (String × T)) session_id = none ∧
    (get_task sessions session_id = none →
      announce sessions message session_id =
        (.httpError 404 ("No active session: " ++ session_id), [])) ∧
    (∀ t : T, get_task sessions session_id = some t →
      announce sessions message session_id =
        (.ok { status := "announced", session_id := session_id },
         [.ttsSpeak message])) := by
  refine ⟨?_, ?_, ?_, ?_, ?_⟩
  · simp [get_task, register_session]
  · have : (unregister_session sessions session_id).find?
        (fun p => p.1 == session_id) = none := by
      rw [List.find?_eq_none]
      intro x hx
      have := (List.mem_filter.mp hx).2
      simpa using this
    simp [get_task, this]
  · simp [get_task]
  · intro h
    simp [announce, h]
  · intro t h
    simp [announce, h]

/-- Claim C7 witness: a concrete registry with one session; announcing to a
missing id yields the 404, announcing to the registered id succeeds. -/
theorem session_registry_spec_witness :
    announce ([("s1", 7)] : List (String × Nat)) "hi" "s2" =
      (.httpError 404 ("No active session: " ++ "s2"), []) ∧
    announce ([("s1", 7)] : List (String × Nat)) "hi" "s1" =
      (.ok { status := "announced", session_id := "s1" }, [.ttsSpeak "hi"]) :=
  ⟨(session_registry_spec [("s1", 7)] "s2" "hi" 0).2.2.2.1 (by decide),
   (session_registry_spec [("s1", 7)] "s1" "hi" 0).2.2.2.2 7 (by decide)⟩

/-- Claim C8: `/reload-tools` checks session existence first. On an unknown
session it answers 404 and returns the n8n cache state unchanged (contents
and timestamp); on a registered session it clears the caches and answers
`status="reloaded"` with `tool_count = 0` and the session id. -/
theorem reload_tools_spec {T : Type} (sessions : List (String × T))
    (req : ReloadToolsRequest) (st : CacheState) :
    (get_task sessions req.session_id = none →
      reload_tools sessions req st =
        (.httpError 404 ("No active session: " ++ req.session_id), [], st)) ∧
    (∀ t : T, get_task sessions req.session_id = some t →
      (reload_tools sessions req st).2.2 = clear_caches st ∧
      (reload_tools sessions req st).1 =
        .ok { status := "reloaded", tool_count := 0,
              session_id := req.session_id }) := by
  constructor
  · intro h
    simp [reload_tools, h]
  · intro t h
    simp [reload_tools, h]

/-- Claim C8 witness: a concrete unknown session leaves a concrete non-empty
cache state untouched; a registered one clears it. -/
theorem reload_tools_spec_witness :
    reload_tools ([("s1", 7)] : List (String × Nat))
        { tool_name := none, message := none, session_id := "nope" } exStaleCache =
      (.httpError 404 ("No active session: " ++ "nope"), [], exStaleCache) ∧
    (reload_tools ([("s1", 7)] : List (String × Nat))
        { tool_name := none, message := none, session_id := "s1" } exStaleCache).2.2 =
      clear_caches exStaleCache :=
  ⟨(reload_tools_spec [("s1", 7)]
      { tool_name := none, message := none, session_id := "nope" } exStaleCache).1
      (by decide),
   ((reload_tools_spec [("s1", 7)]
      { tool_name := none, message := none, session_id := "s1" } exStaleCache).2 7
      (by decide)).1⟩

/-- Claim C9: on a result carrying non-empty content, `parse_mcp_result` returns
the JSON-decoded value of the text of the first content item when decoding
succeeds, and the raw text itself when decoding fails; being a total
function, it never raises on undecodable text. -/
theorem parse_mcp_result_spec {J : Type} (jsonLoads : String → Option J)
    (content_item : MCPContentItem) (rest : List MCPContentItem) :
    (∀ v : J, jsonLoads (contentText content_item) = some v →
      parse_mcp_result jsonLoads (.withContent (content_item :: rest)) = .json v) ∧
    (jsonLoads (contentText content_item) = none →
      parse_mcp_result jsonLoads (.withContent (content_item :: rest)) =
        .text (contentText content_item)) := by
  constructor
  · intro v h
    simp [parse_mcp_result, h]
  · intro h
    simp [parse_mcp_result, h]

/-- Claim C9 witness: a toy decoder on decodable text `"42"` and undecodable
text `"oops"`. -/
theorem parse_mcp_result_spec_witness :
    parse_mcp_result exDecoder (.withContent [.textItem "42"]) = .json 42 ∧
    parse_mcp_result exDecoder (.withContent [.textItem "oops"]) = .text "oops" :=
  ⟨(parse_mcp_result_spec exDecoder (.textItem "42") []).1 42 (by decide),
   (parse_mcp_result_spec exDecoder (.textItem "oops") []).2 (by decide)⟩

theorem invoke_foldl_not_mem (m : List (String × String))
    (registry : List (String × (Args → HandlerAction))) (tn : String) (args : Args)
    (h : tn ∉ m.map Prod.fst) :
    invoke_handler
      (m.foldl (fun r p => register_function r p.1 (handle_workflow p.2)) registry)
      tn args = invoke_handler registry tn args := by
  induction m generalizing registry with
  | nil => rfl
  | cons p rest ih =>
    simp only [List.map_cons, List.mem_cons, not_or] at h
    rw [List.foldl_cons, ih _ h.2]
    simp [invoke_handler, register_function, List.find?_cons, Ne.symm h.1]

theorem invoke_foldl_mem (m : List (String × String))
    (registry : List (String × (Args → HandlerAction)))
    (tn wn : String) (args : Args)
    (hnodup : (m.map Prod.fst).Nodup) (hmem : (tn, wn) ∈ m) :
    invoke_handler
      (m.foldl (fun r p => register_function r p.1 (handle_workflow p.2)) registry)
      tn args = some (.executeWorkflow wn args) := by
  induction m generalizing registry with
  | nil => cases hmem
  | cons p rest ih =>
    rw [List.map_cons, List.nodup_cons] at hnodup
    rcases List.mem_cons.mp hmem with heq | hrest
    · subst heq
      rw [List.foldl_cons,
        invoke_foldl_not_mem rest _ tn args hnodup.1]
      simp [invoke_handler, register_function, handle_workflow]
    · rw [List.foldl_cons]
      exact ih _ hnodup.2 hrest

/-- Claim C10: `register_tool_handlers` binds each generated workflow handler to
the workflow of its own loop iteration (the `wf_name` default argument is
evaluated per iteration): for every `(tool_name, workflow_name)` pair of
the name map, invoking the handler registered under `tool_name` executes
exactly `workflow_name` with the supplied arguments. -/
theorem register_tool_handlers_binding (web_search_available : Bool)
    (m : List (String × String)) (tool_name workflow_name : String) (args : Args)
    (hnodup : (m.map Prod.fst).Nodup) (hmem : (tool_name, workflow_name) ∈ m) :
    invoke_handler (register_tool_handlers web_search_available m) tool_name args =
      some (.executeWorkflow workflow_name args) :=
  invoke_foldl_mem m _ tool_name workflow_name args hnodup hmem

/-- Claim C10 witness: two workflows in one registration pass; the handler bound
under the FIRST tool name executes the first workflow, not the one of the
last loop iteration. -/
theorem register_tool_handlers_binding_witness :
    invoke_handler
      (register_tool_handlers false [("alpha", "Alpha Flow"), ("beta", "Beta Flow")])
      "alpha" [("k", "v")] =
      some (.executeWorkflow "Alpha Flow" [("k", "v")]) :=
  register_tool_handlers_binding false [("alpha", "Alpha Flow"), ("beta", "Beta Flow")]
    "alpha" "Alpha Flow" [("k", "v")] (by decide) (by decide)
